import Mathlib

/-!
Shallow embedding of the `lune` repository (ryanseys/lune) in Lean 4.

The numeric code of `src/lib/lune.js` and `src/lib/julian.js` is embedded over the
real numbers: one JavaScript number becomes one real number, `Math.sin`, `Math.cos`
and `Math.floor` become `Real.sin`, `Real.cos` and `Int.floor`.  Instants
(JavaScript `Date` values) are embedded as their integer millisecond count
(`date.getTime()`); the `TimeClip` truncation that the `Date` constructor applies
to a non-integral millisecond argument is modelled by `jsToInteger` (truncation
toward zero).

`src/lib/lune.js` refers to the members `julian.from_date` and `julian.to_date`
while `src/lib/julian.js` exports the members `fromDate` and `toDate`; the module
boundary is embedded explicitly (`julianExportNames`, `julianHas`) so that this
mismatch is part of the model.  The pure arithmetic that `lune.js` performs is
embedded separately (`phaseCalc`, `meanphase`, `truephasePt`, `phase_hunt_linked`,
named after the source functions) and is reached by the export-checking wrappers
only when the required member exists.
-/

namespace Lune

/-! ### Constants of `src/lib/lune.js` (lines 17-79) -/

noncomputable def PRECISION : ℝ := 0.05
noncomputable def NEW : ℝ := 0 / 4.0
noncomputable def FIRST : ℝ := 1 / 4.0
noncomputable def FULL : ℝ := 2 / 4.0
noncomputable def LAST : ℝ := 3 / 4.0
noncomputable def NEXTNEW : ℝ := 4 / 4.0

noncomputable def EPOCH : ℝ := 2444238.5
noncomputable def ECLIPTIC_LONGITUDE_EPOCH : ℝ := 278.833540
noncomputable def ECLIPTIC_LONGITUDE_PERIGEE : ℝ := 282.596403
noncomputable def ECCENTRICITY : ℝ := 0.016718
noncomputable def SUN_SMAXIS : ℝ := 1.49585e8
noncomputable def SUN_ANGULAR_SIZE_SMAXIS : ℝ := 0.533128
noncomputable def MOON_MEAN_LONGITUDE_EPOCH : ℝ := 64.975464
noncomputable def MOON_MEAN_PERIGEE_EPOCH : ℝ := 349.383063
noncomputable def NODE_MEAN_LONGITUDE_EPOCH : ℝ := 151.950429
noncomputable def MOON_INCLINATION : ℝ := 5.145396
noncomputable def MOON_ECCENTRICITY : ℝ := 0.054900
noncomputable def MOON_ANGULAR_SIZE : ℝ := 0.5181
noncomputable def MOON_SMAXIS : ℝ := 384401.0
noncomputable def MOON_PARALLAX : ℝ := 0.9507
noncomputable def SYNODIC_MONTH : ℝ := 29.53058868
noncomputable def LUNATIONS_BASE : ℝ := 2423436.0
noncomputable def EARTH_RADIUS : ℝ := 6378.16

/-! ### Angle helpers of `src/lib/lune.js` (lines 81-109) -/

/-- `fixangle(a)` of `lune.js` line 81: `a - 360.0 * Math.floor(a/360.0)`. -/
noncomputable def fixangle (a : ℝ) : ℝ := a - 360.0 * ⌊a / 360.0⌋

/-- `torad(d)` of `lune.js` line 90: degrees to radians. -/
noncomputable def torad (d : ℝ) : ℝ := d * Real.pi / 180.0

/-- `todeg(r)` of `lune.js` line 99: radians to degrees. -/
noncomputable def todeg (r : ℝ) : ℝ := r * 180.0 / Real.pi

/-- `dsin(d)` of `lune.js` line 103: sine of an angle given in degrees. -/
noncomputable def dsin (d : ℝ) : ℝ := Real.sin (torad d)

/-- `dcos(d)` of `lune.js` line 107: cosine of an angle given in degrees. -/
noncomputable def dcos (d : ℝ) : ℝ := Real.cos (torad d)

end Lune

/-! ### Truncation toward zero (JavaScript `ToInteger` / `TimeClip`)

`new Date(ms)` stores `ToInteger(ms)`: the fractional part is discarded toward
zero.  `Date.getTime()` returns that integer. -/

/-- JavaScript `ToInteger`: truncation of a real number toward zero. -/
noncomputable def jsToInteger (r : ℝ) : ℤ := if 0 ≤ r then ⌊r⌋ else -⌊-r⌋

namespace Julian

/-! ### `src/lib/julian.js`

```
function fromDate (date) { return date.getTime() / 86400000 + 2440587.5 }
function toDate (julian) { return new Date((julian - 2440587.5) * 86400000) }
exports.fromDate = fromDate
exports.toDate = toDate
```
-/

/-- `fromDate` of `julian.js` line 3, on the millisecond value of the date. -/
noncomputable def fromDate (ms : ℤ) : ℝ := (ms : ℝ) / 86400000 + 2440587.5

/-- The real-valued millisecond count that `toDate` of `julian.js` line 7 passes to
the `Date` constructor. -/
noncomputable def toDateMsReal (julian : ℝ) : ℝ := (julian - 2440587.5) * 86400000

/-- `toDate` of `julian.js` line 7, as the millisecond value of the constructed
date: the `Date` constructor clips its argument with `ToInteger`. -/
noncomputable def toDate (julian : ℝ) : ℤ := jsToInteger (toDateMsReal julian)

/-- The names exported by `src/lib/julian.js` (lines 11-12). -/
def exportNames : List String := ["fromDate", "toDate"]

/-- Whether the `julian` module object has a member of the given name. -/
def julianHas (s : String) : Bool := exportNames.contains s

end Julian

namespace Lune

/-! ### The Kepler solver of `src/lib/lune.js` (lines 114-129)

```
function kepler(m, ecc) {
  var epsilon = 1e-6;
  m = torad(m);
  var e = m;
  while(1) {
    var delta = e - ecc * Math.sin(e) - m;
    e = e - delta / (1.0 - ecc * Math.cos(e));
    if (Math.abs(delta) <= epsilon) { break; }
  }
  return e;
}
```

The loop body first computes `delta` from the current `e`, then updates `e`, then
breaks when `|delta| <= epsilon`; the returned value is therefore the updated `e`
of the first iteration whose pre-update residual is within tolerance.  The loop
has no other exit: if no iteration ever satisfies the residual test the function
never returns, which the embedding represents by `none`. -/

/-- The residual `delta = e - ecc * Math.sin(e) - m` of the Kepler loop body
(`m` already converted to radians). -/
noncomputable def keplerDelta (m ecc e : ℝ) : ℝ := e - ecc * Real.sin e - torad m

/-- `keplerE m ecc n` is the value of the loop variable `e` after `n` executions
of the Kepler loop body, starting from `e = torad m`. -/
noncomputable def keplerE (m ecc : ℝ) : ℕ → ℝ
  | 0 => torad m
  | n + 1 =>
    keplerE m ecc n -
      keplerDelta m ecc (keplerE m ecc n) / (1.0 - ecc * Real.cos (keplerE m ecc n))

/-- The Kepler loop breaks at iteration `n` when the residual computed in that
iteration is at most `epsilon = 1e-6`. -/
noncomputable def keplerConv (m ecc : ℝ) (n : ℕ) : Prop :=
  |keplerDelta m ecc (keplerE m ecc n)| ≤ 1e-6

open Classical in
/-- Result of `kepler(m, ecc)`: the updated `e` of the first iteration whose
residual passes the tolerance test, or `none` when no iteration ever passes it
(the `while(1)` loop then never terminates; it has no iteration cap). -/
noncomputable def keplerOpt (m ecc : ℝ) : Option ℝ :=
  if h : ∃ n, keplerConv m ecc n then some (keplerE m ecc (Nat.find h + 1)) else none

/-- Total-function view of `kepler` used inside `phaseCalc`; on arguments where
the source loop does not terminate (`keplerOpt = none`) no JavaScript value
exists and the embedding returns the junk value `0`. -/
noncomputable def kepler (m ecc : ℝ) : ℝ := (keplerOpt m ecc).getD 0

/-! ### `phase` of `src/lib/lune.js` (lines 136-227), numeric part

The source first evaluates `julian.from_date(phase_date)`; the member lookup is
modelled at the wrapper `phaseJS` below.  `phaseCalc` is the arithmetic the
function body performs on the returned day count, embedded line by line. -/

structure PhaseSnapshot where
  phase : ℝ
  illuminated : ℝ
  age : ℝ
  distance : ℝ
  angular_diameter : ℝ
  sun_distance : ℝ
  sun_angular_diameter : ℝ

/-- Lines 140-227 of `lune.js`: the snapshot computed from the millisecond value
of the input date, with `julian.from_date` bound to the `fromDate` formula of
`src/lib/julian.js`. -/
noncomputable def phaseCalc (ms : ℤ) : PhaseSnapshot :=
  let phase_date := Julian.fromDate ms
  let day := phase_date - EPOCH
  let N := fixangle ((360 / 365.2422) * day)
  let M := fixangle (N + ECLIPTIC_LONGITUDE_EPOCH - ECLIPTIC_LONGITUDE_PERIGEE)
  let Ec0 := kepler M ECCENTRICITY
  let Ec1 := Real.sqrt ((1 + ECCENTRICITY) / (1 - ECCENTRICITY)) * Real.tan (Ec0 / 2)
  let Ec : ℝ := 2 * todeg (Real.arctan Ec1)
  let lambda_sun := fixangle (Ec + ECLIPTIC_LONGITUDE_PERIGEE)
  let F := (1 + ECCENTRICITY * Real.cos (torad Ec)) / (1 - ECCENTRICITY * ECCENTRICITY)
  let sun_dist := SUN_SMAXIS / F
  let sun_angular_diameter := F * SUN_ANGULAR_SIZE_SMAXIS
  let moon_longitude := fixangle (13.1763966 * day + MOON_MEAN_LONGITUDE_EPOCH)
  let MM := fixangle (moon_longitude - 0.1114041 * day - MOON_MEAN_PERIGEE_EPOCH)
  let evection := 1.2739 * Real.sin (torad (2 * (moon_longitude - lambda_sun) - MM))
  let annual_eq := 0.1858 * Real.sin (torad M)
  let A3 := 0.37 * Real.sin (torad M)
  let MmP := MM + evection - annual_eq - A3
  let mEc := 6.2886 * Real.sin (torad MmP)
  let A4 := 0.214 * Real.sin (torad (2 * MmP))
  let lP := moon_longitude + evection + mEc - annual_eq + A4
  let variation := 0.6583 * Real.sin (torad (2 * (lP - lambda_sun)))
  let lPP := lP + variation
  let moon_age := lPP - lambda_sun
  let moon_phase := (1 - Real.cos (torad moon_age)) / 2.0
  let moon_dist := (MOON_SMAXIS * (1 - MOON_ECCENTRICITY * MOON_ECCENTRICITY)) /
    (1 + MOON_ECCENTRICITY * Real.cos (torad (MmP + mEc)))
  let moon_diam_frac := moon_dist / MOON_SMAXIS
  let moon_angular_diameter := MOON_ANGULAR_SIZE / moon_diam_frac
  { phase := fixangle moon_age / 360.0
    illuminated := moon_phase
    age := SYNODIC_MONTH * fixangle moon_age / 360.0
    distance := moon_dist
    angular_diameter := moon_angular_diameter
    sun_distance := sun_dist
    sun_angular_diameter := sun_angular_diameter }

/-! ### `meanphase` of `src/lib/lune.js` (lines 376-394)

The subtraction `sdate - (-2208945600000)` coerces its operand to a number: a
`Date` becomes its millisecond count, a plain number stays as it is.  The first
call in `phase_hunt` passes a `Date`; every later call passes a Julian day
number, so the same formula is applied to both units. -/

/-- `meanphase(sdate, k)`: direct evaluation of the mean-new-moon formula, with
`t` in Julian centuries of `(sdate + 2208945600000) / 86400000` days. -/
noncomputable def meanphase (sdate k : ℝ) : ℝ :=
  let delta_t := (sdate - (-2208945600000)) / (1000 * 60 * 60 * 24)
  let t := delta_t / 36525
  let t2 := t * t
  let t3 := t2 * t
  2415020.75933 + SYNODIC_MONTH * k + 0.0001178 * t2 -
    0.000000155 * t3 + 0.00033 * dsin (166.56 + 132.87 * t - 0.009173 * t2)

/-- The reference instant baked into `meanphase` as `-(-2208945600000)`
milliseconds since the Unix epoch. -/
def meanphaseRefMs : ℤ := -2208945600000

/-! ### `truephase` of `src/lib/lune.js` (lines 281-364), numeric part

The correction series of the two branches are named `newfullCorrection`
(selectors NEW and FULL, lines 312-326) and `quarterCorrection` (selectors FIRST
and LAST, lines 331-347); the additional quadrant-dependent terms of lines 350
and 354 are `firstQuarterExtra` and `lastQuarterExtra`.  Each definition is the
source expression verbatim. -/

/-- Lines 312-326: the correction sum added for the NEW and FULL selectors. -/
noncomputable def newfullCorrection (t m mprime f : ℝ) : ℝ :=
  (0.1734 - 0.000393 * t) * dsin m +
  0.0021 * dsin (2 * m) -
  0.4068 * dsin mprime +
  0.0161 * dsin (2 * mprime) -
  0.0004 * dsin (3 * mprime) +
  0.0104 * dsin (2 * f) -
  0.0051 * dsin (m + mprime) -
  0.0074 * dsin (m - mprime) +
  0.0004 * dsin (2 * f + m) -
  0.0004 * dsin (2 * f - m) -
  0.0006 * dsin (2 * f + mprime) +
  0.0010 * dsin (2 * f - mprime) +
  0.0005 * dsin (m + 2 * mprime)

/-- Lines 332-346: the correction sum added for the FIRST and LAST selectors. -/
noncomputable def quarterCorrection (t m mprime f : ℝ) : ℝ :=
  (0.1721 - 0.0004 * t) * dsin m +
  0.0021 * dsin (2 * m) -
  0.6280 * dsin mprime +
  0.0089 * dsin (2 * mprime) -
  0.0004 * dsin (3 * mprime) +
  0.0079 * dsin (2 * f) -
  0.0119 * dsin (m + mprime) -
  0.0047 * dsin (m - mprime) +
  0.0003 * dsin (2 * f + m) -
  0.0004 * dsin (2 * f - m) -
  0.0006 * dsin (2 * f + mprime) +
  0.0021 * dsin (2 * f - mprime) +
  0.0003 * dsin (m + 2 * mprime) +
  0.0004 * dsin (m - 2 * mprime) -
  0.0003 * dsin (2 * m + mprime)

/-- Line 350: the extra correction added in the FIRST-quarter branch. -/
noncomputable def firstQuarterExtra (m mprime : ℝ) : ℝ :=
  0.0028 - 0.0004 * dcos m + 0.0003 * dcos mprime

/-- Line 354: the extra correction added in the LAST-quarter branch. -/
noncomputable def lastQuarterExtra (m mprime : ℝ) : ℝ :=
  -0.0028 + 0.0004 * dcos m - 0.0003 * dcos mprime

open Classical in
/-- Lines 281-361 of `truephase(k, tphase)`: the corrected Julian day number
`pt` (the member call `julian.to_date(pt)` of line 363 is modelled at
`truephaseMs` and at the wrappers below). -/
noncomputable def truephasePt (k0 tphase : ℝ) : ℝ :=
  let k := k0 + tphase
  let t := k / 1236.85
  let t2 := t * t
  let t3 := t2 * t
  let pt := 2415020.75933 + SYNODIC_MONTH * k + 0.0001178 * t2 -
    0.000000155 * t3 + 0.00033 * dsin (166.56 + 132.87 * t - 0.009173 * t2)
  let m := 359.2242 + 29.10535608 * k - 0.0000333 * t2 - 0.00000347 * t3
  let mprime := 306.0253 + 385.81691806 * k + 0.0107306 * t2 + 0.00001236 * t3
  let f := 21.2964 + 390.67050646 * k - 0.0016528 * t2 - 0.00000239 * t3
  if tphase < 0.01 ∨ |tphase - 0.5| < 0.01 then
    pt + newfullCorrection t m mprime f
  else if |tphase - 0.25| < 0.01 ∨ |tphase - 0.75| < 0.01 then
    (if tphase < 0.5 then pt + quarterCorrection t m mprime f + firstQuarterExtra m mprime
     else pt + quarterCorrection t m mprime f + lastQuarterExtra m mprime)
  else pt

/-- `truephase` with the final `julian.to_date` member bound to the `toDate`
formula of `src/lib/julian.js`, as the millisecond value of the returned date. -/
noncomputable def truephaseMs (k0 tphase : ℝ) : ℤ := Julian.toDate (truephasePt k0 tphase)

end Lune

/-! ### Proleptic Gregorian calendar fields of a JavaScript `Date`

`phase_hunt` reads `getFullYear` and `getMonth` of the stepped-back date.  These
accessors use the host's local time zone; the embedding fixes the zone to UTC
(offset zero), the zone the repository's continuous-time arithmetic assumes.
`civilFromDays` is the standard days-to-civil conversion on the proleptic
Gregorian calendar that underlies JavaScript `Date` fields. -/

/-- Civil `(year, month 1-12, day 1-31)` of a day count relative to 1970-01-01. -/
def civilFromDays (z0 : ℤ) : ℤ × ℤ × ℤ :=
  let z := z0 + 719468
  let era := Int.fdiv z 146097
  let doe := z - era * 146097
  let yoe := (doe - doe / 1460 + doe / 36524 - doe / 146096) / 365
  let y := yoe + era * 400
  let doy := doe - (365 * yoe + yoe / 4 - yoe / 100)
  let mp := (5 * doy + 2) / 153
  let d := doy - (153 * mp + 2) / 5 + 1
  let m := mp + (if mp < 10 then 3 else -9)
  (y + (if m ≤ 2 then 1 else 0), m, d)

/-- `date.getFullYear()` (UTC) of a millisecond instant. -/
def dateGetFullYear (ms : ℤ) : ℤ := (civilFromDays (Int.fdiv ms 86400000)).1

/-- `date.getMonth()` (UTC, 0-based) of a millisecond instant. -/
def dateGetMonth (ms : ℤ) : ℤ := (civilFromDays (Int.fdiv ms 86400000)).2.1 - 1

namespace Lune

/-! ### `phase_hunt` of `src/lib/lune.js` (lines 236-271), numeric part

```
var adate = new Date(sdate.getTime()); // today!
var x = 45; // go back 45 days!
adate.setDate(adate.getDate() - x);
var k1 = Math.floor((adate.getFullYear() + ((adate.getMonth()) * (1.0/12.0)) - 1900) * 12.3685);
var nt1 = meanphase(adate, k1);
adate = nt1;
sdate = julian.from_date(sdate);
var k2;
while(1) {
  adate = adate + SYNODIC_MONTH;
  k2 = k1 + 1;
  var nt2 = meanphase(adate, k2);
  if(nt1 <= sdate && sdate < nt2) { break; }
  nt1 = nt2;
  k1 = k2;
}
```

`setDate(getDate() - 45)` renormalises the day-of-month through the calendar,
which on a fixed-offset (UTC) clock is exactly a 45-day (in milliseconds) shift.
The first `meanphase` call receives the stepped-back `Date`, coerced to its
millisecond count by the subtraction inside `meanphase`; every later call
receives the accumulating Julian day number `adate = nt1 + j * SYNODIC_MONTH`.
The member call `julian.from_date` of line 249 is modelled at the wrapper
`phase_huntJS`; `phase_hunt_linked` is the loop with that member bound to the
`fromDate` formula of `src/lib/julian.js`. -/

/-- Line 245: the initial lunation-index estimate `k1` from the calendar year
and month of the date 45 days before `ms`. -/
noncomputable def huntK1 (ms : ℤ) : ℤ :=
  let adms := ms - 45 * 86400000
  ⌊((dateGetFullYear adms : ℝ) + (dateGetMonth adms : ℝ) * (1.0 / 12.0) - 1900) * 12.3685⌋

/-- The values taken by `nt1`/`nt2` in the hunt loop: `huntNt nt10 k10 0` is the
initial `nt1` and `huntNt nt10 k10 (i+1)` is the `nt2` computed in iteration
`i+1` (whose `adate` argument is `nt10 + (i+1) * SYNODIC_MONTH`). -/
noncomputable def huntNt (nt10 k10 : ℝ) : ℕ → ℝ
  | 0 => nt10
  | i + 1 => meanphase (nt10 + (i + 1 : ℕ) * SYNODIC_MONTH) (k10 + (i + 1 : ℕ))

/-- Exit condition of hunt-loop iteration `i+1`: `nt1 <= sdate && sdate < nt2`. -/
noncomputable def huntTest (nt10 k10 sdate : ℝ) (i : ℕ) : Prop :=
  huntNt nt10 k10 i ≤ sdate ∧ sdate < huntNt nt10 k10 (i + 1)

/-- Lines 261-268: the five phase dates built from the bracketing index, as
millisecond values (`ks = [k1, k1, k1, k1, k2]`,
`tphases = [NEW, FIRST, FULL, LAST, NEW]`). -/
noncomputable def huntQuint (k1 : ℝ) : ℤ × ℤ × ℤ × ℤ × ℤ :=
  (truephaseMs k1 NEW, truephaseMs k1 FIRST, truephaseMs k1 FULL,
    truephaseMs k1 LAST, truephaseMs (k1 + 1) NEW)

open Classical in
/-- `phase_hunt` with the julian members bound to the formulas of
`src/lib/julian.js`: search from the estimate `huntK1 ms` for the first
iteration whose exit test holds, then return the five corrected dates; `none`
when no iteration ever passes the test (the `while(1)` loop then never
terminates). -/
noncomputable def phase_hunt_linked (ms : ℤ) : Option (ℤ × ℤ × ℤ × ℤ × ℤ) :=
  let sdate := Julian.fromDate ms
  let k10 := huntK1 ms
  let nt10 := meanphase ((ms : ℝ) - 45 * 86400000) (k10 : ℝ)
  if h : ∃ i, huntTest nt10 (k10 : ℝ) sdate i then
    some (huntQuint ((k10 : ℝ) + (Nat.find h : ℕ)))
  else none

/-! ### The public operations as the snapshot actually links them

`lune.js` invokes `julian.from_date` (lines 140 and 249) and `julian.to_date`
(line 363).  Reading an absent member of a module object yields `undefined`, and
invoking `undefined` throws a `TypeError` before the callee could run. -/

inductive JSError where
  | typeError : JSError
  | invalidArgument : JSError
deriving DecidableEq

/-- A `Date` argument: `some ms` for a valid date, `none` for an invalid
(NaN-backed) one. -/
abbrev JSDate := Option ℤ

/-- `phase(phase_date)` of `lune.js` lines 136-227.  The body performs no
validity check on its argument; its first act on the (truthy) date is the member
call `julian.from_date(phase_date)`, which throws `TypeError` when the member is
absent.  The linked branch is dead in this snapshot; it evaluates `phaseCalc` on
the millisecond count (an invalid date would propagate NaN there, which the
real-number branch does not model, as the branch cannot be reached). -/
noncomputable def phaseJS (d : JSDate) : Except JSError PhaseSnapshot :=
  if Julian.julianHas "from_date" then
    Except.ok (phaseCalc (d.getD 0))
  else
    Except.error JSError.typeError

/-- `phase_hunt(sdate)` of `lune.js` lines 236-271.  After the pure prelude
(stepped-back date, `k1`, first `meanphase`) line 249 performs the member call
`julian.from_date(sdate)`, which throws `TypeError` when the member is absent —
before the search loop and before any result is produced.  In the linked (dead)
branch, `none` of `phase_hunt_linked` means the search loop never terminates,
hence the result type `Option (Except ...)`:  `none` = no return at all. -/
noncomputable def phase_huntJS (d : JSDate) : Option (Except JSError (ℤ × ℤ × ℤ × ℤ × ℤ)) :=
  if Julian.julianHas "from_date" then
    (phase_hunt_linked (d.getD 0)).map Except.ok
  else
    some (Except.error JSError.typeError)

/-! ### `phase_range`, modelled from the spec -/

/-- Modelled from the spec: advance the lunation index past phases that precede
the window (spec section 4.6 step 3: "Advance `k` by 1 repeatedly, evaluating
`truephase(k, phaseSelector)`, until the result is `>= start`").  Fuel bounds
the scan. -/
noncomputable def phaseRangeSkip (s : ℝ) (lo : ℤ) : ℕ → ℝ → ℝ
  | 0, k => k
  | fuel + 1, k => if truephaseMs k s < lo then phaseRangeSkip s lo fuel (k + 1) else k

/-- Modelled from the spec: collect results while they are within the window
(spec section 4.6 step 4: "Continue advancing and collecting results while
`truephase(k, phaseSelector) <= end`").  Fuel bounds the scan. -/
noncomputable def phaseRangeCollect (s : ℝ) (hi : ℤ) : ℕ → ℝ → List ℤ
  | 0, _ => []
  | fuel + 1, k =>
    if truephaseMs k s ≤ hi then truephaseMs k s :: phaseRangeCollect s hi fuel (k + 1)
    else []

/-- Modelled from the spec: `phase_range` is referenced by the repository's
README, test suite and type declarations, but its implementation is not under
`src/` (`src/lib/lune.js` exports only `phase` and `phase_hunt`).  Spec section
4.6: "Validate both inputs are valid Instants; if `end < start`, swap them (the
operation is symmetric over the unordered pair)", seed the index from
`start - 45 days` with the coarse estimate of section 4.5 step 3 (`huntK1`
applies that estimate to the date 45 days before its argument), skip phases
before the window, then collect while the result is at most `end`. -/
noncomputable def phase_range (fuel : ℕ) (start stop : ℤ) (s : ℝ) : List ℤ :=
  let lohi := if stop < start then (stop, start) else (start, stop)
  let k0 := huntK1 lohi.1
  phaseRangeCollect s lohi.2 fuel (phaseRangeSkip s lohi.1 fuel (k0 : ℝ))

end Lune

namespace Lune

/-! ### Named intermediates of `truephase` (lines 286-307)

`truephase` first offsets `k` by the selector and derives `t`; the mean time of
phase `pt` and the three auxiliary mean elements `m`, `mprime`, `f` are
polynomials in the offset `k` and `t`.  The following definitions name those
intermediates so that theorems can speak about the branch structure; each body
is the corresponding source expression. -/

/-- Line 286: `k = k + tphase`. -/
noncomputable def tpK (k0 tphase : ℝ) : ℝ := k0 + tphase

/-- Line 288: `t = k / 1236.85`. -/
noncomputable def tpT (k0 tphase : ℝ) : ℝ := tpK k0 tphase / 1236.85

/-- Lines 294-298: the mean time of phase `pt` before corrections. -/
noncomputable def tpBase (k0 tphase : ℝ) : ℝ :=
  let k := tpK k0 tphase
  let t := tpT k0 tphase
  let t2 := t * t
  let t3 := t2 * t
  2415020.75933 + SYNODIC_MONTH * k + 0.0001178 * t2 -
    0.000000155 * t3 + 0.00033 * dsin (166.56 + 132.87 * t - 0.009173 * t2)

/-- Line 301: the Sun's mean anomaly `m`. -/
noncomputable def tpM (k0 tphase : ℝ) : ℝ :=
  let k := tpK k0 tphase
  let t := tpT k0 tphase
  let t2 := t * t
  let t3 := t2 * t
  359.2242 + 29.10535608 * k - 0.0000333 * t2 - 0.00000347 * t3

/-- Line 304: the Moon's mean anomaly `mprime`. -/
noncomputable def tpMprime (k0 tphase : ℝ) : ℝ :=
  let k := tpK k0 tphase
  let t := tpT k0 tphase
  let t2 := t * t
  let t3 := t2 * t
  306.0253 + 385.81691806 * k + 0.0107306 * t2 + 0.00001236 * t3

/-- Line 307: the Moon's argument of latitude `f`. -/
noncomputable def tpF (k0 tphase : ℝ) : ℝ :=
  let k := tpK k0 tphase
  let t := tpT k0 tphase
  let t2 := t * t
  let t3 := t2 * t
  21.2964 + 390.67050646 * k - 0.0016528 * t2 - 0.00000239 * t3

/-! ### The correction series as explicit term lists

Each list entry is one trigonometric term of the corresponding correction sum of
`truephase`, in source order with its source sign; summing the evaluated list
recovers the correction (proved below), so the list length is the number of
terms of the series. -/

/-- The 13 terms of the NEW/FULL correction series (lines 312-326). -/
noncomputable def newfullSeriesTerms : List (ℝ → ℝ → ℝ → ℝ → ℝ) :=
  [fun t m _ _ => (0.1734 - 0.000393 * t) * dsin m,
   fun _ m _ _ => 0.0021 * dsin (2 * m),
   fun _ _ mprime _ => -(0.4068 * dsin mprime),
   fun _ _ mprime _ => 0.0161 * dsin (2 * mprime),
   fun _ _ mprime _ => -(0.0004 * dsin (3 * mprime)),
   fun _ _ _ f => 0.0104 * dsin (2 * f),
   fun _ m mprime _ => -(0.0051 * dsin (m + mprime)),
   fun _ m mprime _ => -(0.0074 * dsin (m - mprime)),
   fun _ m _ f => 0.0004 * dsin (2 * f + m),
   fun _ m _ f => -(0.0004 * dsin (2 * f - m)),
   fun _ _ mprime f => -(0.0006 * dsin (2 * f + mprime)),
   fun _ _ mprime f => 0.0010 * dsin (2 * f - mprime),
   fun _ m mprime _ => 0.0005 * dsin (m + 2 * mprime)]

/-- The 15 terms of the FIRST/LAST correction series (lines 332-346). -/
noncomputable def quarterSeriesTerms : List (ℝ → ℝ → ℝ → ℝ → ℝ) :=
  [fun t m _ _ => (0.1721 - 0.0004 * t) * dsin m,
   fun _ m _ _ => 0.0021 * dsin (2 * m),
   fun _ _ mprime _ => -(0.6280 * dsin mprime),
   fun _ _ mprime _ => 0.0089 * dsin (2 * mprime),
   fun _ _ mprime _ => -(0.0004 * dsin (3 * mprime)),
   fun _ _ _ f => 0.0079 * dsin (2 * f),
   fun _ m mprime _ => -(0.0119 * dsin (m + mprime)),
   fun _ m mprime _ => -(0.0047 * dsin (m - mprime)),
   fun _ m _ f => 0.0003 * dsin (2 * f + m),
   fun _ m _ f => -(0.0004 * dsin (2 * f - m)),
   fun _ _ mprime f => -(0.0006 * dsin (2 * f + mprime)),
   fun _ _ mprime f => 0.0021 * dsin (2 * f - mprime),
   fun _ m mprime _ => 0.0003 * dsin (m + 2 * mprime),
   fun _ m mprime _ => 0.0004 * dsin (m - 2 * mprime),
   fun _ m mprime _ => -(0.0003 * dsin (2 * m + mprime))]

/-- A second reading of `meanphase`, following the spec's words: a polynomial in
Julian centuries (of 36525 days of 86400000 ms) elapsed from the fixed reference
instant `meanphaseRefMs` to `sdate`, plus one periodic correction term.  It is
compared with the source-derived `meanphase` in the theorems below; which civil
instant `meanphaseRefMs` denotes is settled there as well. -/
noncomputable def meanphaseSpec (sdate k : ℝ) : ℝ :=
  let t := (sdate - (meanphaseRefMs : ℝ)) / 86400000 / 36525
  let t2 := t * t
  let t3 := t2 * t
  2415020.75933 + SYNODIC_MONTH * k + 0.0001178 * t2 -
    0.000000155 * t3 + 0.00033 * dsin (166.56 + 132.87 * t - 0.009173 * t2)

/-- Query instant for the phase-hunt bracketing analysis: a valid JavaScript
date (8.0e15 ms since the epoch, within the representable range of 8.64e15),
around the year 255479. -/
def c1X : ℤ := 8000000000000000

/-- The lunation index at which the hunt loop run on `c1X` exits (it exits in
its first iteration, so this is also the initial estimate `huntK1 c1X`). -/
def c1K : ℤ := 3136401

end Lune

/-! ## Theorems -/

/-! ### Generic facts about the embedded primitives -/

namespace Lune

theorem dsin_le_one (d : ℝ) : dsin d ≤ 1 := Real.sin_le_one _

theorem neg_one_le_dsin (d : ℝ) : -1 ≤ dsin d := Real.neg_one_le_sin _

theorem abs_dsin_le_one (d : ℝ) : |dsin d| ≤ 1 := abs_le.mpr ⟨neg_one_le_dsin d, dsin_le_one d⟩

theorem dcos_le_one (d : ℝ) : dcos d ≤ 1 := Real.cos_le_one _

theorem neg_one_le_dcos (d : ℝ) : -1 ≤ dcos d := Real.neg_one_le_cos _

theorem abs_dcos_le_one (d : ℝ) : |dcos d| ≤ 1 := abs_le.mpr ⟨neg_one_le_dcos d, dcos_le_one d⟩

theorem fixangle_nonneg (a : ℝ) : 0 ≤ fixangle a := by
  have h360 : ((360.0 : ℝ)) = ((360 : ℝ)) := by norm_num
  rw [fixangle, h360]
  have h := Int.sub_floor_div_mul_nonneg a (by norm_num : (0:ℝ) < 360)
  linarith

theorem fixangle_lt (a : ℝ) : fixangle a < 360 := by
  have h360 : ((360.0 : ℝ)) = ((360 : ℝ)) := by norm_num
  rw [fixangle, h360]
  have h := Int.sub_floor_div_mul_lt a (by norm_num : (0:ℝ) < 360)
  linarith

end Lune

theorem jsToInteger_intCast (n : ℤ) : jsToInteger (n : ℝ) = n := by
  unfold jsToInteger
  by_cases h : (0:ℝ) ≤ (n:ℝ)
  · simp [h]
  · simp only [h, if_false]
    rw [← Int.cast_neg, Int.floor_intCast]
    ring

theorem jsToInteger_mono {r s : ℝ} (h : r ≤ s) : jsToInteger r ≤ jsToInteger s := by
  unfold jsToInteger
  by_cases hr : 0 ≤ r
  · have hs : 0 ≤ s := le_trans hr h
    simp only [hr, hs, if_true]
    exact Int.floor_le_floor h
  · by_cases hs : 0 ≤ s
    · simp only [hr, hs, if_true, if_false]
      have h1 : -⌊-r⌋ ≤ 0 := by
        have : (0:ℝ) ≤ -r := by linarith [lt_of_not_le hr]
        have := Int.le_floor.mpr (by exact_mod_cast this : ((0:ℤ):ℝ) ≤ -r)
        omega
      have h2 : (0:ℤ) ≤ ⌊s⌋ := Int.le_floor.mpr (by exact_mod_cast hs)
      omega
    · simp only [hr, hs, if_false]
      have : -s ≤ -r := by linarith
      have := Int.floor_le_floor this
      omega

theorem jsToInteger_lt_of_lt_int {r : ℝ} {n : ℤ} (h0 : 0 ≤ r) (h : r < n) :
    jsToInteger r < n := by
  unfold jsToInteger
  simp only [h0, if_true]
  exact Int.floor_lt.mpr (by exact_mod_cast h)

/-! ### C3 — the time-scale conversions are exact inverses -/

/-- C3: for every instant `x` (finite-millisecond date), `toDate (fromDate x)`
equals `x` exactly (in particular to within 1 ms), and the two conversion
formulas are exact algebraic inverses of one another as real functions: the
`toDate` formula applied after the `fromDate` formula is the identity on
millisecond counts, and conversely on day counts. -/
theorem julian_fromDate_toDate_roundtrip :
    (∀ ms : ℤ, Julian.toDate (Julian.fromDate ms) = ms) ∧
    (∀ r : ℝ, Julian.toDateMsReal (r / 86400000 + 2440587.5) = r) ∧
    (∀ j : ℝ, Julian.toDateMsReal j / 86400000 + 2440587.5 = j) := by
  refine ⟨fun ms => ?_, fun r => ?_, fun j => ?_⟩
  · unfold Julian.toDate Julian.toDateMsReal Julian.fromDate
    have h : ((ms : ℝ) / 86400000 + 2440587.5 - 2440587.5) * 86400000 = (ms : ℝ) := by ring
    rw [h, jsToInteger_intCast]
  · unfold Julian.toDateMsReal; ring
  · unfold Julian.toDateMsReal; ring

/-! ### C2 — range invariants of the phase snapshot -/

namespace Lune

theorem phase_frac_bounds (a : ℝ) : 0 ≤ fixangle a / 360.0 ∧ fixangle a / 360.0 < 1 := by
  constructor
  · exact div_nonneg (fixangle_nonneg a) (by norm_num)
  · rw [div_lt_one (by norm_num)]
    have := fixangle_lt a
    linarith

theorem illuminated_bounds (θ : ℝ) :
    0 ≤ (1 - Real.cos θ) / 2.0 ∧ (1 - Real.cos θ) / 2.0 ≤ 1 := by
  have h1 := Real.cos_le_one θ
  have h2 := Real.neg_one_le_cos θ
  constructor <;> [linarith; linarith]

theorem age_bounds (a : ℝ) :
    0 ≤ SYNODIC_MONTH * fixangle a / 360.0 ∧
    SYNODIC_MONTH * fixangle a / 360.0 < 29.53058868 := by
  have h1 := fixangle_nonneg a
  have h2 := fixangle_lt a
  unfold SYNODIC_MONTH
  constructor
  · positivity
  · rw [div_lt_iff₀ (by norm_num)]
    nlinarith

/-- C2: for every instant, the snapshot fields satisfy `0 ≤ phase < 1`,
`0 ≤ illuminated ≤ 1` and `0 ≤ age < 29.53058868` (the numeric body of
`phase`, the member binding being settled separately). -/
theorem phase_snapshot_ranges (ms : ℤ) :
    0 ≤ (phaseCalc ms).phase ∧ (phaseCalc ms).phase < 1 ∧
    0 ≤ (phaseCalc ms).illuminated ∧ (phaseCalc ms).illuminated ≤ 1 ∧
    0 ≤ (phaseCalc ms).age ∧ (phaseCalc ms).age < 29.53058868 := by
  simp only [phaseCalc]
  exact ⟨(phase_frac_bounds _).1, (phase_frac_bounds _).2,
    (illuminated_bounds _).1, (illuminated_bounds _).2,
    (age_bounds _).1, (age_bounds _).2⟩

/-! ### C7 — the age field is the synodic month times the phase field -/

/-- C7: for every instant, `age = SYNODIC_MONTH * phase` holds exactly between
the two snapshot fields. -/
theorem phase_age_is_synodic_times_phase (ms : ℤ) :
    (phaseCalc ms).age = SYNODIC_MONTH * (phaseCalc ms).phase := by
  simp only [phaseCalc]
  ring

end Lune

/-! ### C10 / C6 — the module boundary -/

namespace Lune

theorem julianHas_from_date : Julian.julianHas "from_date" = false := by decide

theorem julianHas_to_date : Julian.julianHas "to_date" = false := by decide

/-- C10: the `julian` module of this snapshot exports neither `from_date` nor
`to_date`, the members `lune.js` invokes; reading them yields `undefined`, so
every call to `phase` or `phase_hunt`, for any date, throws a `TypeError`
before producing a snapshot or phase dates. -/
theorem phase_and_hunt_raise_typeerror (d : JSDate) :
    Julian.julianHas "from_date" = false ∧
    Julian.julianHas "to_date" = false ∧
    phaseJS d = Except.error JSError.typeError ∧
    phase_huntJS d = some (Except.error JSError.typeError) := by
  refine ⟨julianHas_from_date, julianHas_to_date, ?_, ?_⟩
  · unfold phaseJS
    rw [julianHas_from_date]
    simp
  · unfold phase_huntJS
    rw [julianHas_from_date]
    simp

/-- C6 counterexample: on an invalid (NaN-backed) date the call fails with a
`TypeError` caused by the absent `julian.from_date` member — not with an
`InvalidArgument` error produced by input validation; the two errors differ. -/
theorem phase_invalid_date_not_invalid_argument :
    phaseJS none = Except.error JSError.typeError ∧
    (Except.error JSError.typeError : Except JSError PhaseSnapshot) ≠
      Except.error JSError.invalidArgument := by
  constructor
  · unfold phaseJS
    rw [julianHas_from_date]
    simp
  · intro hcontr
    injection hcontr with h2
    exact absurd h2 (by decide)

/-- C6 amended: `phase` performs no validity check at its boundary; for every
argument, valid or invalid, the call fails with the same `TypeError` raised by
the `julian.from_date` member access, and no `InvalidArgument` error is ever
produced. -/
theorem phase_no_boundary_validation (d : JSDate) :
    phaseJS d = Except.error JSError.typeError ∧
    phaseJS d ≠ Except.error JSError.invalidArgument := by
  have h : phaseJS d = Except.error JSError.typeError := by
    unfold phaseJS
    rw [julianHas_from_date]
    simp
  refine ⟨h, ?_⟩
  rw [h]
  intro hcontr
  injection hcontr with h2
  exact absurd h2 (by decide)
end Lune

/-! ### C9 — symmetry of `phase_range` in its endpoints -/

namespace Lune

/-- C9: for all fuels, endpoints and selectors, `phase_range` applied to the
endpoints in either order produces the identical result sequence: the operation
swaps its endpoints when `end < start`. -/
theorem phase_range_symmetric (fuel : ℕ) (a b : ℤ) (s : ℝ) :
    phase_range fuel a b s = phase_range fuel b a s := by
  unfold phase_range
  rcases lt_trichotomy a b with h | rfl | h
  · rw [if_neg (not_lt.mpr h.le), if_pos h]
  · rw [if_neg (lt_irrefl a)]
  · rw [if_pos h, if_neg (not_lt.mpr h.le)]

end Lune

/-! ### C5 — structure of the `truephase` correction series -/

namespace Lune

theorem truephasePt_new (k : ℝ) :
    truephasePt k NEW =
      tpBase k NEW + newfullCorrection (tpT k NEW) (tpM k NEW) (tpMprime k NEW) (tpF k NEW) := by
  simp only [truephasePt, NEW]
  rw [if_pos (Or.inl (by norm_num))]
  simp only [tpBase, tpM, tpMprime, tpF, tpT, tpK, NEW]

theorem truephasePt_full (k : ℝ) :
    truephasePt k FULL =
      tpBase k FULL + newfullCorrection (tpT k FULL) (tpM k FULL) (tpMprime k FULL) (tpF k FULL) := by
  simp only [truephasePt, FULL]
  rw [if_pos (Or.inr (by rw [abs_sub_lt_iff]; norm_num))]
  simp only [tpBase, tpM, tpMprime, tpF, tpT, tpK, FULL]

theorem truephasePt_first (k : ℝ) :
    truephasePt k FIRST =
      tpBase k FIRST +
        quarterCorrection (tpT k FIRST) (tpM k FIRST) (tpMprime k FIRST) (tpF k FIRST) +
        firstQuarterExtra (tpM k FIRST) (tpMprime k FIRST) := by
  simp only [truephasePt, FIRST]
  rw [if_neg (by rw [abs_sub_lt_iff]; norm_num),
    if_pos (Or.inl (by rw [abs_sub_lt_iff]; norm_num)), if_pos (by norm_num)]
  simp only [tpBase, tpM, tpMprime, tpF, tpT, tpK, FIRST]

theorem truephasePt_last (k : ℝ) :
    truephasePt k LAST =
      tpBase k LAST +
        quarterCorrection (tpT k LAST) (tpM k LAST) (tpMprime k LAST) (tpF k LAST) +
        lastQuarterExtra (tpM k LAST) (tpMprime k LAST) := by
  simp only [truephasePt, LAST]
  rw [if_neg (by rw [abs_sub_lt_iff]; norm_num),
    if_pos (Or.inr (by rw [abs_sub_lt_iff]; norm_num)), if_neg (by norm_num)]
  simp only [tpBase, tpM, tpMprime, tpF, tpT, tpK, LAST]

theorem lastQuarterExtra_eq_neg_first (m mprime : ℝ) :
    lastQuarterExtra m mprime = -(firstQuarterExtra m mprime) := by
  unfold lastQuarterExtra firstQuarterExtra
  ring

theorem newfullSeriesTerms_sum (t m mprime f : ℝ) :
    ((newfullSeriesTerms.map fun g => g t m mprime f).sum) = newfullCorrection t m mprime f := by
  simp only [newfullSeriesTerms, newfullCorrection, List.map_cons, List.map_nil,
    List.sum_cons, List.sum_nil]
  ring

theorem quarterSeriesTerms_sum (t m mprime f : ℝ) :
    ((quarterSeriesTerms.map fun g => g t m mprime f).sum) = quarterCorrection t m mprime f := by
  simp only [quarterSeriesTerms, quarterCorrection, List.map_cons, List.map_nil,
    List.sum_cons, List.sum_nil]
  ring

/-- C5 counterexample: the FIRST/LAST correction series of `truephase` has 15
trigonometric terms, not 13 as claimed (the list `quarterSeriesTerms` sums to
the source's quarter correction, by `quarterSeriesTerms_sum`). -/
theorem quarter_series_is_15_terms_not_13 :
    quarterSeriesTerms.length = 15 ∧ quarterSeriesTerms.length ≠ 13 := by
  constructor
  · rfl
  · intro h
    simp [quarterSeriesTerms] at h

/-- C5 amended: the correction added to the mean time of phase is one fixed
13-term trigonometric sum for the NEW and FULL selectors, a different fixed
**15**-term sum for the FIRST and LAST selectors, plus an extra
quadrant-dependent term added for FIRST and subtracted for LAST, the sign flip
being the only difference between the FIRST and LAST corrections. -/
theorem truephase_correction_structure :
    (∀ k : ℝ, truephasePt k NEW =
      tpBase k NEW + newfullCorrection (tpT k NEW) (tpM k NEW) (tpMprime k NEW) (tpF k NEW)) ∧
    (∀ k : ℝ, truephasePt k FULL =
      tpBase k FULL + newfullCorrection (tpT k FULL) (tpM k FULL) (tpMprime k FULL) (tpF k FULL)) ∧
    (∀ k : ℝ, truephasePt k FIRST =
      tpBase k FIRST +
        quarterCorrection (tpT k FIRST) (tpM k FIRST) (tpMprime k FIRST) (tpF k FIRST) +
        firstQuarterExtra (tpM k FIRST) (tpMprime k FIRST)) ∧
    (∀ k : ℝ, truephasePt k LAST =
      tpBase k LAST +
        quarterCorrection (tpT k LAST) (tpM k LAST) (tpMprime k LAST) (tpF k LAST) +
        lastQuarterExtra (tpM k LAST) (tpMprime k LAST)) ∧
    (∀ m mprime : ℝ, lastQuarterExtra m mprime = -(firstQuarterExtra m mprime)) ∧
    newfullSeriesTerms.length = 13 ∧
    quarterSeriesTerms.length = 15 ∧
    (∀ t m mprime f : ℝ,
      ((newfullSeriesTerms.map fun g => g t m mprime f).sum) = newfullCorrection t m mprime f) ∧
    (∀ t m mprime f : ℝ,
      ((quarterSeriesTerms.map fun g => g t m mprime f).sum) = quarterCorrection t m mprime f) :=
  ⟨truephasePt_new, truephasePt_full, truephasePt_first, truephasePt_last,
    lastQuarterExtra_eq_neg_first, rfl, rfl, newfullSeriesTerms_sum, quarterSeriesTerms_sum⟩

end Lune

/-! ### C8 — the `meanphase` reference instant and closed form -/

namespace Lune

theorem meanphase_eq_spec (s k : ℝ) : meanphase s k = meanphaseSpec s k := by
  have h : (s - (-2208945600000)) / (1000 * 60 * 60 * 24) / 36525 =
      (s - ((meanphaseRefMs : ℤ) : ℝ)) / 86400000 / 36525 := by
    unfold meanphaseRefMs
    push_cast
    norm_num
  simp only [meanphase, meanphaseSpec]
  rw [h]

/-- C8 counterexample: the reference instant baked into `meanphase`
(`-(-2208945600000)` ms) is noon of 1900 January 1 (UTC), not a 1900-01-12
instant: its civil date is `(1900, 1, 1)` and differs from `(1900, 1, 12)`. -/
theorem meanphase_reference_is_jan1_not_jan12 :
    civilFromDays (Int.fdiv meanphaseRefMs 86400000) = (1900, 1, 1) ∧
    civilFromDays (Int.fdiv meanphaseRefMs 86400000) ≠ (1900, 1, 12) ∧
    Int.emod meanphaseRefMs 86400000 = 43200000 := by
  refine ⟨by decide, by decide, by decide⟩

/-- C8 amended: `meanphase(sdate, k)` evaluates its polynomial and periodic
correction in the variable `t` defined as Julian centuries (36525 days of
86400000 ms) elapsed from the fixed reference instant `meanphaseRefMs` to
`sdate`, with no iteration; that reference instant is 1900-01-01T12:00:00Z
(noon of 1900 January 1), not January 12. -/
theorem meanphase_reference_and_form :
    (∀ s k : ℝ, meanphase s k = meanphaseSpec s k) ∧
    civilFromDays (Int.fdiv meanphaseRefMs 86400000) = (1900, 1, 1) ∧
    Int.emod meanphaseRefMs 86400000 = 43200000 :=
  ⟨meanphase_eq_spec, by decide, by decide⟩

end Lune

/-! ### C4 — the Kepler solver: Newton iteration, exit test, and the missing cap -/

namespace Lune

theorem keplerE_60_2_fixed (n : ℕ) : keplerE 60 2 n = torad 60 := by
  induction n with
  | zero => rfl
  | succ n ih =>
    show keplerE 60 2 n -
      keplerDelta 60 2 (keplerE 60 2 n) / (1.0 - 2 * Real.cos (keplerE 60 2 n)) = torad 60
    rw [ih]
    have hpi : torad 60 = Real.pi / 3 := by
      unfold torad
      ring
    have hc : Real.cos (torad 60) = 1 / 2 := by
      rw [hpi]
      exact Real.cos_pi_div_three
    rw [hc]
    have hd : (1.0 : ℝ) - 2 * (1 / 2) = 0 := by norm_num
    rw [hd, div_zero, sub_zero]

theorem keplerConv_60_2_false (n : ℕ) : ¬ keplerConv 60 2 n := by
  unfold keplerConv
  rw [keplerE_60_2_fixed]
  intro h
  unfold keplerDelta at h
  have hpi : torad 60 = Real.pi / 3 := by
    unfold torad
    ring
  rw [hpi, Real.sin_pi_div_three] at h
  rw [show Real.pi / 3 - 2 * (Real.sqrt 3 / 2) - Real.pi / 3 = -Real.sqrt 3 by ring] at h
  have h3 : (1 : ℝ) ≤ Real.sqrt 3 := by
    rw [show (1 : ℝ) = Real.sqrt 1 from Real.sqrt_one.symm]
    exact Real.sqrt_le_sqrt (by norm_num)
  rw [abs_neg, abs_of_nonneg (by linarith)] at h
  linarith

/-- C4 counterexample: the Kepler loop has no iteration cap and no failure
path: on a non-converging input (mean anomaly 60 degrees, eccentricity 2, where
the Newton denominator vanishes at the start value) the `while(1)` loop never
passes its residual test and the function never returns, rather than failing
fast. -/
theorem kepler_diverges_without_cap : keplerOpt 60 2 = none := by
  unfold keplerOpt
  rw [dif_neg]
  rintro ⟨n, hn⟩
  exact keplerConv_60_2_false n hn

open Classical in
/-- C4 amended: `kepler(m, ecc)` iterates Newton's update from `E0 = torad m`,
returns the updated iterate of the first iteration whose residual satisfies
`|E - ecc*sin(E) - m| <= 1e-6`, and has **no** iteration cap: the residual test
is the loop's only exit, so on non-converging inputs it loops forever instead
of failing fast. -/
theorem kepler_newton_loop (m ecc : ℝ) (n : ℕ) (hc : keplerConv m ecc n)
    (hmin : ∀ j, j < n → ¬ keplerConv m ecc j) :
    keplerOpt m ecc = some (keplerE m ecc (n + 1)) ∧
    keplerE m ecc 0 = torad m ∧
    (∀ i, keplerE m ecc (i + 1) = keplerE m ecc i -
      keplerDelta m ecc (keplerE m ecc i) / (1.0 - ecc * Real.cos (keplerE m ecc i))) := by
  refine ⟨?_, rfl, fun i => rfl⟩
  unfold keplerOpt
  rw [dif_pos ⟨n, hc⟩]
  have hfind : Nat.find (⟨n, hc⟩ : ∃ i, keplerConv m ecc i) = n :=
    (Nat.find_eq_iff _).mpr ⟨hc, fun j hj => hmin j hj⟩
  rw [hfind]

/-- Witness for `kepler_newton_loop`: at mean anomaly 0 and Earth's
eccentricity the residual test passes in the very first iteration. -/
theorem kepler_newton_loop_witness :
    keplerConv 0 0.016718 0 ∧
    keplerOpt 0 0.016718 = some (keplerE 0 0.016718 1) := by
  have hc : keplerConv 0 0.016718 0 := by
    unfold keplerConv keplerDelta keplerE torad
    rw [show (0 : ℝ) * Real.pi / 180.0 = 0 by ring, Real.sin_zero]
    norm_num
  exact ⟨hc,
    (kepler_newton_loop 0 0.016718 0 hc (fun j hj => absurd hj (Nat.not_lt_zero j))).1⟩

end Lune

/-! ### C1 — bounds on the correction series and the mean-phase polynomial -/

namespace Lune

theorem coef_dsin_bounds (c θ : ℝ) (hc : 0 ≤ c) : -c ≤ c * dsin θ ∧ c * dsin θ ≤ c := by
  constructor
  · have h := mul_le_mul_of_nonneg_left (neg_one_le_dsin θ) hc
    linarith
  · have h := mul_le_mul_of_nonneg_left (dsin_le_one θ) hc
    linarith

theorem coef_dcos_bounds (c θ : ℝ) (hc : 0 ≤ c) : -c ≤ c * dcos θ ∧ c * dcos θ ≤ c := by
  constructor
  · have h := mul_le_mul_of_nonneg_left (neg_one_le_dcos θ) hc
    linarith
  · have h := mul_le_mul_of_nonneg_left (dcos_le_one θ) hc
    linarith

theorem tcoef_dsin_bounds (a b t θ : ℝ) (ha : 0 ≤ a) (hb : 0 ≤ b) :
    -(a + b * |t|) ≤ (a - b * t) * dsin θ ∧ (a - b * t) * dsin θ ≤ a + b * |t| := by
  have habs : |(a - b * t) * dsin θ| ≤ a + b * |t| := by
    rw [abs_mul]
    have h1 : |a - b * t| ≤ a + b * |t| := by
      calc |a - b * t| ≤ |a| + |b * t| := by
              rw [sub_eq_add_neg]
              calc |a + -(b * t)| ≤ |a| + |-(b * t)| := abs_add _ _
                _ = |a| + |b * t| := by rw [abs_neg]
        _ = a + b * |t| := by rw [abs_of_nonneg ha, abs_mul, abs_of_nonneg hb]
    calc |a - b * t| * |dsin θ| ≤ (a + b * |t|) * 1 :=
          mul_le_mul h1 (abs_dsin_le_one θ) (abs_nonneg _)
            (by have := abs_nonneg t; positivity)
      _ = a + b * |t| := mul_one _
  exact abs_le.mp habs

theorem newfullCorrection_bounds (t m mp f : ℝ) :
    -(0.6246 + 0.000393 * |t|) ≤ newfullCorrection t m mp f ∧
    newfullCorrection t m mp f ≤ 0.6246 + 0.000393 * |t| := by
  obtain ⟨a1, b1⟩ := tcoef_dsin_bounds 0.1734 0.000393 t m (by norm_num) (by norm_num)
  obtain ⟨a2, b2⟩ := coef_dsin_bounds 0.0021 (2 * m) (by norm_num)
  obtain ⟨a3, b3⟩ := coef_dsin_bounds 0.4068 mp (by norm_num)
  obtain ⟨a4, b4⟩ := coef_dsin_bounds 0.0161 (2 * mp) (by norm_num)
  obtain ⟨a5, b5⟩ := coef_dsin_bounds 0.0004 (3 * mp) (by norm_num)
  obtain ⟨a6, b6⟩ := coef_dsin_bounds 0.0104 (2 * f) (by norm_num)
  obtain ⟨a7, b7⟩ := coef_dsin_bounds 0.0051 (m + mp) (by norm_num)
  obtain ⟨a8, b8⟩ := coef_dsin_bounds 0.0074 (m - mp) (by norm_num)
  obtain ⟨a9, b9⟩ := coef_dsin_bounds 0.0004 (2 * f + m) (by norm_num)
  obtain ⟨a10, b10⟩ := coef_dsin_bounds 0.0004 (2 * f - m) (by norm_num)
  obtain ⟨a11, b11⟩ := coef_dsin_bounds 0.0006 (2 * f + mp) (by norm_num)
  obtain ⟨a12, b12⟩ := coef_dsin_bounds 0.0010 (2 * f - mp) (by norm_num)
  obtain ⟨a13, b13⟩ := coef_dsin_bounds 0.0005 (m + 2 * mp) (by norm_num)
  unfold newfullCorrection
  constructor <;> linarith

theorem quarterCorrection_bounds (t m mp f : ℝ) :
    -(0.8404 + 0.0004 * |t|) ≤ quarterCorrection t m mp f ∧
    quarterCorrection t m mp f ≤ 0.8404 + 0.0004 * |t| := by
  obtain ⟨a1, b1⟩ := tcoef_dsin_bounds 0.1721 0.0004 t m (by norm_num) (by norm_num)
  obtain ⟨a2, b2⟩ := coef_dsin_bounds 0.0021 (2 * m) (by norm_num)
  obtain ⟨a3, b3⟩ := coef_dsin_bounds 0.6280 mp (by norm_num)
  obtain ⟨a4, b4⟩ := coef_dsin_bounds 0.0089 (2 * mp) (by norm_num)
  obtain ⟨a5, b5⟩ := coef_dsin_bounds 0.0004 (3 * mp) (by norm_num)
  obtain ⟨a6, b6⟩ := coef_dsin_bounds 0.0079 (2 * f) (by norm_num)
  obtain ⟨a7, b7⟩ := coef_dsin_bounds 0.0119 (m + mp) (by norm_num)
  obtain ⟨a8, b8⟩ := coef_dsin_bounds 0.0047 (m - mp) (by norm_num)
  obtain ⟨a9, b9⟩ := coef_dsin_bounds 0.0003 (2 * f + m) (by norm_num)
  obtain ⟨a10, b10⟩ := coef_dsin_bounds 0.0004 (2 * f - m) (by norm_num)
  obtain ⟨a11, b11⟩ := coef_dsin_bounds 0.0006 (2 * f + mp) (by norm_num)
  obtain ⟨a12, b12⟩ := coef_dsin_bounds 0.0021 (2 * f - mp) (by norm_num)
  obtain ⟨a13, b13⟩ := coef_dsin_bounds 0.0003 (m + 2 * mp) (by norm_num)
  obtain ⟨a14, b14⟩ := coef_dsin_bounds 0.0004 (m - 2 * mp) (by norm_num)
  obtain ⟨a15, b15⟩ := coef_dsin_bounds 0.0003 (2 * m + mp) (by norm_num)
  unfold quarterCorrection
  constructor <;> linarith

theorem firstQuarterExtra_bounds (m mp : ℝ) :
    -0.0035 ≤ firstQuarterExtra m mp ∧ firstQuarterExtra m mp ≤ 0.0035 := by
  obtain ⟨a1, b1⟩ := coef_dcos_bounds 0.0004 m (by norm_num)
  obtain ⟨a2, b2⟩ := coef_dcos_bounds 0.0003 mp (by norm_num)
  unfold firstQuarterExtra
  constructor <;> linarith

theorem lastQuarterExtra_bounds (m mp : ℝ) :
    -0.0035 ≤ lastQuarterExtra m mp ∧ lastQuarterExtra m mp ≤ 0.0035 := by
  obtain ⟨a1, b1⟩ := coef_dcos_bounds 0.0004 m (by norm_num)
  obtain ⟨a2, b2⟩ := coef_dcos_bounds 0.0003 mp (by norm_num)
  unfold lastQuarterExtra
  constructor <;> linarith

theorem add_dsin_le {A B : ℝ} (θ : ℝ) (h : A + 0.00033 ≤ B) : A + 0.00033 * dsin θ ≤ B := by
  have h2 := (coef_dsin_bounds 0.00033 θ (by norm_num)).2
  linarith

theorem add_dsin_ge {A B : ℝ} (θ : ℝ) (h : B ≤ A - 0.00033) : B ≤ A + 0.00033 * dsin θ := by
  have h2 := (coef_dsin_bounds 0.00033 θ (by norm_num)).1
  linarith

theorem meanphase_lower (s k : ℝ) (h0 : -2208945600000 ≤ s) (h1 : s ≤ 946814400000) :
    2415020.75933 + SYNODIC_MONTH * k - 0.00033 ≤ meanphase s k := by
  simp only [meanphase]
  set t := (s - (-2208945600000)) / (1000 * 60 * 60 * 24) / 36525 with ht
  have ht0 : 0 ≤ t := by
    rw [ht]
    apply div_nonneg (div_nonneg (by linarith) (by norm_num)) (by norm_num)
  have ht1 : t ≤ 1 := by
    rw [ht, div_le_one (by norm_num), div_le_iff₀ (by norm_num)]
    linarith
  have hcube : t * t * t ≤ t * t := by nlinarith
  have hsin := (coef_dsin_bounds 0.00033 (166.56 + 132.87 * t - 0.009173 * (t * t))
    (by norm_num)).1
  nlinarith [sq_nonneg t, mul_nonneg ht0 ht0]

end Lune

namespace Lune

theorem tpT_abs_le (k tp : ℝ) (hk : |k| ≤ 4000001) (htp0 : 0 ≤ tp) (htp1 : tp ≤ 1) :
    |tpT k tp| ≤ 3235 := by
  obtain ⟨hkl, hkr⟩ := abs_le.mp hk
  simp only [tpT, tpK]
  rw [abs_div, abs_of_pos (show (0:ℝ) < 1236.85 by norm_num),
    div_le_iff₀ (by norm_num : (0:ℝ) < 1236.85)]
  have h1 : |k + tp| ≤ |k| + |tp| := abs_add _ _
  rw [abs_of_nonneg htp0] at h1
  have h2 : |tp| = tp := abs_of_nonneg htp0
  rw [abs_le]
  constructor <;> nlinarith [abs_nonneg k, abs_le.mp hk]

theorem tpBase_diff (k0 tp k0' tp' : ℝ) (h : k0' + tp' = k0 + tp + 0.25)
    (hk : |k0 + tp| ≤ 4000001) :
    7.3806 ≤ tpBase k0' tp' - tpBase k0 tp := by
  obtain ⟨hk1, hk2⟩ := abs_le.mp hk
  have hsq : (k0 + tp) ^ 2 ≤ 16000008000001 := by nlinarith
  simp only [tpBase, tpK, tpT, SYNODIC_MONTH]
  rw [h]
  set x := k0 + tp with hxdef
  have hs1 := (coef_dsin_bounds 0.00033 (166.56 + 132.87 * ((x + 0.25) / 1236.85) -
    0.009173 * (((x + 0.25) / 1236.85) * ((x + 0.25) / 1236.85))) (by norm_num)).1
  have hs2 := (coef_dsin_bounds 0.00033 (166.56 + 132.87 * (x / 1236.85) -
    0.009173 * ((x / 1236.85) * (x / 1236.85))) (by norm_num)).2
  ring_nf
  ring_nf at hs1 hs2 hsq hk1 hk2
  linarith

theorem truephaseMs_mono {a b c d : ℝ} (h : truephasePt a b ≤ truephasePt c d) :
    truephaseMs a b ≤ truephaseMs c d := by
  unfold truephaseMs Julian.toDate
  apply jsToInteger_mono
  unfold Julian.toDateMsReal
  have h2 := mul_le_mul_of_nonneg_right (sub_le_sub_right h 2440587.5)
    (show (0:ℝ) ≤ 86400000 by norm_num)
  linarith

/-- C1 amended (ordering part): for every lunation index of magnitude at most
4,000,000 — which covers the index the hunt derives from any representable
JavaScript date — the five dates `truephase(k1, NEW)`, `truephase(k1, FIRST)`,
`truephase(k1, FULL)`, `truephase(k1, LAST)`, `truephase(k2, NEW)` returned by
`phase_hunt` are non-decreasing in the listed order.  (The bracketing half of
the original claim, `new_date ≤ x < nextnew_date`, is refuted separately.) -/
theorem phase_hunt_quint_ordered (k : ℝ) (hk : |k| ≤ 4000000) :
    (huntQuint k).1 ≤ (huntQuint k).2.1 ∧
    (huntQuint k).2.1 ≤ (huntQuint k).2.2.1 ∧
    (huntQuint k).2.2.1 ≤ (huntQuint k).2.2.2.1 ∧
    (huntQuint k).2.2.2.1 ≤ (huntQuint k).2.2.2.2 := by
  obtain ⟨hkl, hkr⟩ := abs_le.mp hk
  have habs : ∀ tp : ℝ, 0 ≤ tp → tp ≤ 1 → |k + tp| ≤ 4000001 := by
    intro tp h0 h1
    rw [abs_le]
    constructor <;> linarith
  have hk1 : |k| ≤ 4000001 := by linarith [abs_le.mp hk, abs_nonneg k, hk]
  have hkp1 : |k + 1| ≤ 4000001 := habs 1 (by norm_num) (by norm_num)
  have hT0 : |tpT k NEW| ≤ 3235 := tpT_abs_le k NEW hk1 (by norm_num [NEW]) (by norm_num [NEW])
  have hT1 : |tpT k FIRST| ≤ 3235 :=
    tpT_abs_le k FIRST hk1 (by norm_num [FIRST]) (by norm_num [FIRST])
  have hT2 : |tpT k FULL| ≤ 3235 := tpT_abs_le k FULL hk1 (by norm_num [FULL]) (by norm_num [FULL])
  have hT3 : |tpT k LAST| ≤ 3235 := tpT_abs_le k LAST hk1 (by norm_num [LAST]) (by norm_num [LAST])
  have hT4 : |tpT (k + 1) NEW| ≤ 3235 :=
    tpT_abs_le (k + 1) NEW hkp1 (by norm_num [NEW]) (by norm_num [NEW])
  have c0 := newfullCorrection_bounds (tpT k NEW) (tpM k NEW) (tpMprime k NEW) (tpF k NEW)
  have c1 := quarterCorrection_bounds (tpT k FIRST) (tpM k FIRST) (tpMprime k FIRST) (tpF k FIRST)
  have e1 := firstQuarterExtra_bounds (tpM k FIRST) (tpMprime k FIRST)
  have c2 := newfullCorrection_bounds (tpT k FULL) (tpM k FULL) (tpMprime k FULL) (tpF k FULL)
  have c3 := quarterCorrection_bounds (tpT k LAST) (tpM k LAST) (tpMprime k LAST) (tpF k LAST)
  have e3 := lastQuarterExtra_bounds (tpM k LAST) (tpMprime k LAST)
  have c4 := newfullCorrection_bounds (tpT (k + 1) NEW) (tpM (k + 1) NEW) (tpMprime (k + 1) NEW)
    (tpF (k + 1) NEW)
  have d01 : 7.3806 ≤ tpBase k FIRST - tpBase k NEW :=
    tpBase_diff k NEW k FIRST (by simp only [NEW, FIRST]; ring)
      (habs NEW (by norm_num [NEW]) (by norm_num [NEW]))
  have d12 : 7.3806 ≤ tpBase k FULL - tpBase k FIRST :=
    tpBase_diff k FIRST k FULL (by simp only [FIRST, FULL]; ring)
      (habs FIRST (by norm_num [FIRST]) (by norm_num [FIRST]))
  have d23 : 7.3806 ≤ tpBase k LAST - tpBase k FULL :=
    tpBase_diff k FULL k LAST (by simp only [FULL, LAST]; ring)
      (habs FULL (by norm_num [FULL]) (by norm_num [FULL]))
  have d34 : 7.3806 ≤ tpBase (k + 1) NEW - tpBase k LAST :=
    tpBase_diff k LAST (k + 1) NEW (by simp only [NEW, LAST]; ring)
      (habs LAST (by norm_num [LAST]) (by norm_num [LAST]))
  have p01 : truephasePt k NEW ≤ truephasePt k FIRST := by
    rw [truephasePt_new, truephasePt_first]
    linarith [c0.2, c1.1, e1.1, d01]
  have p12 : truephasePt k FIRST ≤ truephasePt k FULL := by
    rw [truephasePt_first, truephasePt_full]
    linarith [c1.2, e1.2, c2.1, d12]
  have p23 : truephasePt k FULL ≤ truephasePt k LAST := by
    rw [truephasePt_full, truephasePt_last]
    linarith [c2.2, c3.1, e3.1, d23]
  have p34 : truephasePt k LAST ≤ truephasePt (k + 1) NEW := by
    rw [truephasePt_last, truephasePt_new]
    linarith [c3.2, e3.2, c4.1, d34]
  exact ⟨truephaseMs_mono p01, truephaseMs_mono p12, truephaseMs_mono p23, truephaseMs_mono p34⟩

/-- Witness for `phase_hunt_quint_ordered` at the concrete index 0. -/
theorem phase_hunt_quint_ordered_witness :
    |(0:ℝ)| ≤ 4000000 ∧
    ((huntQuint 0).1 ≤ (huntQuint 0).2.1 ∧
     (huntQuint 0).2.1 ≤ (huntQuint 0).2.2.1 ∧
     (huntQuint 0).2.2.1 ≤ (huntQuint 0).2.2.2.1 ∧
     (huntQuint 0).2.2.2.1 ≤ (huntQuint 0).2.2.2.2) :=
  ⟨by norm_num, phase_hunt_quint_ordered 0 (by norm_num)⟩

end Lune

namespace Lune

theorem huntK1_c1X : huntK1 c1X = c1K := by
  have hy : dateGetFullYear 7999996112000000 = 255479 := by decide
  have hm : dateGetMonth 7999996112000000 = 9 := by decide
  simp only [huntK1, c1X, c1K]
  rw [show (8000000000000000 : ℤ) - 45 * 86400000 = 7999996112000000 by norm_num, hy, hm]
  push_cast
  rw [Int.floor_eq_iff]
  constructor <;> norm_num

theorem c1_nt10_bounds :
    95033018 ≤ meanphase ((c1X : ℝ) - 45 * 86400000) ((c1K : ℤ) : ℝ) ∧
    meanphase ((c1X : ℝ) - 45 * 86400000) ((c1K : ℤ) : ℝ) ≤ 95033019 := by
  constructor
  · simp only [meanphase, SYNODIC_MONTH, c1X, c1K]
    push_cast
    apply add_dsin_ge
    norm_num
  · simp only [meanphase, SYNODIC_MONTH, c1X, c1K]
    push_cast
    apply add_dsin_le
    norm_num

theorem c1_test0 :
    huntTest (meanphase ((c1X : ℝ) - 45 * 86400000) ((huntK1 c1X : ℤ) : ℝ))
      ((huntK1 c1X : ℤ) : ℝ) (Julian.fromDate c1X) 0 := by
  rw [huntK1_c1X]
  constructor
  · simp only [huntNt]
    have hsd : (95033019 : ℝ) ≤ Julian.fromDate c1X := by
      simp only [Julian.fromDate, c1X]
      push_cast
      norm_num
    exact le_trans c1_nt10_bounds.2 hsd
  · simp only [huntNt]
    push_cast
    have key : ∀ Mv : ℝ, 95033018 ≤ Mv → Mv ≤ 95033019 →
        Julian.fromDate c1X < meanphase (Mv + 1 * SYNODIC_MONTH) (((c1K : ℤ) : ℝ) + 1) := by
      intro Mv h1 h2
      have hlow := meanphase_lower (Mv + 1 * SYNODIC_MONTH) (((c1K : ℤ) : ℝ) + 1)
        (by unfold SYNODIC_MONTH; linarith) (by unfold SYNODIC_MONTH; linarith)
      have hsd : Julian.fromDate c1X <
          2415020.75933 + SYNODIC_MONTH * (((c1K : ℤ) : ℝ) + 1) - 0.00033 := by
        simp only [Julian.fromDate, SYNODIC_MONTH, c1X, c1K]
        push_cast
        norm_num
      linarith
    exact key _ c1_nt10_bounds.1 c1_nt10_bounds.2

theorem c1_nextnew_pt_bounds :
    95033046 ≤ truephasePt ((c1K : ℝ) + 1) NEW ∧
    truephasePt ((c1K : ℝ) + 1) NEW ≤ 95033049.87 := by
  rw [truephasePt_new]
  have hT : tpT ((c1K : ℝ) + 1) NEW ≤ 2536 ∧ 0 ≤ tpT ((c1K : ℝ) + 1) NEW := by
    simp only [tpT, tpK, NEW, c1K]
    push_cast
    constructor <;> norm_num
  have hTabs : |tpT ((c1K : ℝ) + 1) NEW| ≤ 2536 := abs_le.mpr ⟨by linarith [hT.1, hT.2], hT.1⟩
  have hcorr := newfullCorrection_bounds (tpT ((c1K : ℝ) + 1) NEW) (tpM ((c1K : ℝ) + 1) NEW)
    (tpMprime ((c1K : ℝ) + 1) NEW) (tpF ((c1K : ℝ) + 1) NEW)
  have hmul : 0.000393 * |tpT ((c1K : ℝ) + 1) NEW| ≤ 0.000393 * 2536 :=
    mul_le_mul_of_nonneg_left hTabs (by norm_num)
  have hbase_ub : tpBase ((c1K : ℝ) + 1) NEW ≤ 95033048.24 := by
    simp only [tpBase, tpK, tpT, NEW, SYNODIC_MONTH, c1K]
    push_cast
    apply add_dsin_le
    norm_num
  have hbase_lb : (95033048.23 : ℝ) ≤ tpBase ((c1K : ℝ) + 1) NEW := by
    simp only [tpBase, tpK, tpT, NEW, SYNODIC_MONTH, c1K]
    push_cast
    apply add_dsin_ge
    norm_num
  have habs := abs_nonneg (tpT ((c1K : ℝ) + 1) NEW)
  constructor
  · linarith [hcorr.1]
  · linarith [hcorr.2]

open Classical in
/-- C1 counterexample: at the valid query instant `c1X` (8.0e15 ms since the
epoch) the hunt loop exits in its first iteration with lunation index `c1K`,
yet the returned `nextnew_date` (the fifth component) lies about 130 days
before the query instant: `nextnew_date < c1X`, refuting the claimed bracketing
`new_date ≤ x < nextnew_date`.  (The mean-phase values searched by the loop are
evaluated at an almost constant century variable — the loop feeds day counts to
`meanphase`, which scales its argument as milliseconds — while `truephase`
evaluates its century variable from the lunation index itself; at this date the
two disagree by roughly 1800 days.) -/
theorem phase_hunt_bracketing_fails :
    phase_hunt_linked c1X = some (huntQuint ((c1K : ℤ) : ℝ)) ∧
    (huntQuint ((c1K : ℤ) : ℝ)).2.2.2.2 < c1X := by
  constructor
  · simp only [phase_hunt_linked]
    rw [dif_pos ⟨0, c1_test0⟩]
    have hfind : Nat.find (⟨0, c1_test0⟩ :
        ∃ i, huntTest (meanphase ((c1X : ℝ) - 45 * 86400000) ((huntK1 c1X : ℤ) : ℝ))
          ((huntK1 c1X : ℤ) : ℝ) (Julian.fromDate c1X) i) = 0 :=
      (Nat.find_eq_zero _).mpr c1_test0
    rw [hfind, huntK1_c1X]
    norm_num
  · simp only [huntQuint]
    unfold truephaseMs Julian.toDate
    obtain ⟨hlb, hub⟩ := c1_nextnew_pt_bounds
    have h0 : 0 ≤ Julian.toDateMsReal (truephasePt ((c1K : ℝ) + 1) NEW) := by
      unfold Julian.toDateMsReal
      nlinarith
    apply jsToInteger_lt_of_lt_int h0
    unfold Julian.toDateMsReal
    have h1 : (truephasePt ((c1K : ℝ) + 1) NEW - 2440587.5) * 86400000 ≤
        ((95033049.87 : ℝ) - 2440587.5) * 86400000 := by nlinarith
    have h2 : ((95033049.87 : ℝ) - 2440587.5) * 86400000 < ((c1X : ℤ) : ℝ) := by
      simp only [c1X]
      push_cast
      norm_num
    linarith

end Lune
